/-
Verification of the PDF-tool document engine (src/script.py) against its
natural-language specification (spec.md).

The source is a thin command wrapper whose page-level work is carried out by
the PyPDF2 / reportlab libraries; the specification describes the document
engine those libraries provide.  The embedding below translates the wrapper's
own control flow (existence checks, loops, early returns, exception handlers,
temp-file lifecycle) directly from src/script.py, and models the library
primitives the wrapper calls (per-page rotation, page overlay, text
extraction, the report canvas) from the specification's description of the
engine, each such definition marked `Modelled from the spec:`.

A document is its ordered sequence of pages; a page carries its content
stream (a sequence of operators), its MediaBox and its Rotate attribute —
the three page attributes the specification's claims speak about.
-/
import Mathlib

namespace PDFTool

/-- A content-stream operator (§3 ContentStream, §4.6 ExtractText): a
show-text operator carrying the string it shows, or any other operator
(drawing, state, transform), kept opaque. -/
inductive Op where
  | showText (s : String)
  | other (raw : String)
deriving DecidableEq

/-- A MediaBox rectangle in points: lower-left x, lower-left y, upper-right
x, upper-right y. -/
abbrev Rect := Int × Int × Int × Int

/-- A leaf page of the page tree (§3 PageNode): content stream, resolved
MediaBox, and the Rotate attribute. -/
structure Page where
  content : List Op
  mediaBox : Rect
  rotate : Int
deriving DecidableEq

/-- A document, as the claims use it: the flattened ordered page list (§3
Document). -/
abbrev Document := List Page

/-! ## Rotation (src/script.py lines 148-177, `rotate_pdf`) -/

/-- The failure kinds of `rotate_pdf`: the input-existence check at line 151
(logged "Input file not found") and the angle check at line 155 (logged
"Angle must be a multiple of 90 degrees", the spec's `InvalidAngle`). -/
inductive RotateError where
  | fileNotFound
  | invalidAngle
deriving DecidableEq

/-- Modelled from the spec: the per-page rotation `page.rotate(angle)` at
line 166 is performed by the external PDF library, absent from src/.
§4.4 `rotate_page`: "degrees must be a multiple of 90 (normalize modulo 360
into {0,90,180,270}); sets/overwrites the PageNode's Rotate attribute
directly (does not transform content-stream coordinates)". -/
def rotate_page (p : Page) (angle : Int) : Page :=
  { p with rotate := angle % 360 }

/-- Embeds `rotate_pdf` (src lines 148-177): reject a missing input (line
151), reject an angle that is not a multiple of 90 (line 155), otherwise
rotate every page in order (lines 165-167) and return the written document. -/
def rotate_pdf (inputExists : Bool) (pages : Document) (angle : Int) :
    Except RotateError Document :=
  if !inputExists then .error .fileNotFound
  else if angle % 90 ≠ 0 then .error .invalidAngle
  else .ok (pages.map (fun p => rotate_page p angle))

theorem rotate_pdf_ok (pages : Document) (angle : Int) (h : angle % 90 = 0) :
    rotate_pdf true pages angle = .ok (pages.map (fun p => rotate_page p angle)) := by
  simp [rotate_pdf, h]

/-- C3: the rotate operation fails with `InvalidAngle` exactly on angles that
are not multiples of 90; a multiple of 90 is accepted and every resulting
Rotate value is one of 0, 90, 180, 270; rotating by 450 is the same
operation as rotating by 90; rotating by 91 is rejected. -/
theorem rotate_pdf_angle_policy (pages : Document) (angle : Int) (m : Int) :
    (rotate_pdf true pages angle = .error .invalidAngle ↔ angle % 90 ≠ 0) ∧
    (∃ d, rotate_pdf true pages (90 * m) = .ok d ∧
      ∀ i : Nat, (d[i]?.map Page.rotate).getD 0 ∈ ([0, 90, 180, 270] : List Int)) ∧
    rotate_pdf true pages 450 = rotate_pdf true pages 90 ∧
    rotate_pdf true pages 91 = .error .invalidAngle := by
  refine ⟨?_, ?_, ?_, ?_⟩
  · by_cases h : angle % 90 = 0 <;> simp [rotate_pdf, h]
  · refine ⟨pages.map (fun p => rotate_page p (90 * m)), ?_, ?_⟩
    · exact rotate_pdf_ok pages (90 * m) (Int.mul_emod_right 90 m)
    · intro i
      rcases h : (pages.map (fun p => rotate_page p (90 * m)))[i]? with _ | p
      · simp
      · have hp : p.rotate = (90 * m) % 360 := by
          rw [List.getElem?_map] at h
          rcases hq : pages[i]? with _ | q
          · rw [hq] at h; simp at h
          · rw [hq] at h; simp at h; rw [← h]; rfl
        simp only [h, Option.map_some', Option.getD_some, hp]
        have h0 : (0 : Int) < 360 := by norm_num
        have h1 := Int.emod_nonneg (90 * m) (by norm_num : (360 : Int) ≠ 0)
        have h2 := Int.emod_lt_of_pos (90 * m) h0
        have h3 : (90 * m) % 360 % 90 = 0 := by
          conv_lhs => rw [show (360 : Int) = 90 * 4 by norm_num, Int.emod_emod_of_dvd _ ⟨4, by ring⟩]
          exact Int.mul_emod_right 90 m
        simp only [List.mem_cons, List.mem_singleton]
        omega
  · rw [rotate_pdf_ok pages 450 (by norm_num), rotate_pdf_ok pages 90 (by norm_num)]
    have : ∀ p : Page, rotate_page p 450 = rotate_page p 90 := by
      intro p; simp [rotate_page]
    simp only [this]
  · simp [rotate_pdf]

/-- C8: rotating by an accepted angle (a multiple of 90) succeeds and changes
only the Rotate attribute: the page count is unchanged, and at every index the
resulting page has the same content stream and the same MediaBox as the
original page. -/
theorem rotate_pdf_frame (pages : Document) (m : Int) :
    ∃ d, rotate_pdf true pages (90 * m) = .ok d ∧
      d.length = pages.length ∧
      ∀ i : Nat, d[i]?.map Page.content = pages[i]?.map Page.content ∧
        d[i]?.map Page.mediaBox = pages[i]?.map Page.mediaBox := by
  refine ⟨pages.map (fun p => rotate_page p (90 * m)),
    rotate_pdf_ok pages (90 * m) (Int.mul_emod_right 90 m), by simp, ?_⟩
  intro i
  constructor <;>
    · rw [List.getElem?_map]
      rcases pages[i]? with _ | p <;> simp [rotate_page]

/-! ## Watermarking (src/script.py lines 179-219, `add_watermark`) -/

/-- Modelled from the spec: `page.merge_page(watermark_page)` at line 205 is
performed by the external PDF library, absent from src/.  §4.4
`overlay_page`: "appends the overlay's operators to the target page's content
stream (concatenation, overlay drawn last ⇒ on top)". -/
def merge_page (p : Page) (overlay : Page) : Page :=
  { p with content := p.content ++ overlay.content }

/-- Embeds the per-page watermark loop of `add_watermark` (src lines
204-206): each page of the input, in order, is merged with the single
watermark page and added to the writer. -/
def watermark_pages (pages : Document) (overlay : Page) : Document :=
  pages.map (fun p => merge_page p overlay)

/-- C7: watermarking preserves the page count and the original page order
(at every index the resulting page is the input page at the same index with
the overlay's operators appended to its content stream), and every resulting
page's content stream length is at least that page's original length. -/
theorem watermark_preserves_pages (pages : Document) (overlay : Page) :
    (watermark_pages pages overlay).length = pages.length ∧
    (∀ i : Nat, (watermark_pages pages overlay)[i]?.map Page.content =
      pages[i]?.map (fun p => p.content ++ overlay.content)) ∧
    (∀ i : Nat, (pages[i]?.map (fun p => p.content.length)).getD 0 ≤
      ((watermark_pages pages overlay)[i]?.map (fun p => p.content.length)).getD 0) := by
  refine ⟨by simp [watermark_pages], ?_, ?_⟩
  · intro i
    rw [watermark_pages, List.getElem?_map]
    rcases pages[i]? with _ | p <;> simp [merge_page]
  · intro i
    rw [watermark_pages, List.getElem?_map]
    rcases pages[i]? with _ | p <;> simp [merge_page]

/-- The point at which an injected exception interrupts `add_watermark`,
named by the statement of the source that raises it: parsing the input file
(line 197), parsing the overlay file (line 201), the per-page merge loop
(lines 204-206), or writing the output file (lines 208-209).  All four points
lie after the temporary overlay file is created (lines 187-193) and before it
is removed (line 212). -/
inductive WmStep where
  | parseInput
  | parseOverlay
  | mergeLoop
  | writeOutput
deriving DecidableEq

/-- The inputs of one `add_watermark` run: whether the input path exists, the
input document, the generated overlay page, and the point (if any) at which
an exception interrupts the run. -/
structure WmArgs where
  inputExists : Bool
  input : Document
  overlay : Page
  failAt : Option WmStep
deriving DecidableEq

/-- What an `add_watermark` run leaves behind: the returned success flag,
whether the temporary overlay file `temp_watermark.pdf` still exists on disk
at return, the fully written output document if one was produced, and whether
a partially written output file remains. -/
structure WmOutcome where
  success : Bool
  tempOverlayRemains : Bool
  output : Option Document
  outputPartial : Bool
deriving DecidableEq

/-- Embeds the control flow of `add_watermark` (src lines 179-219).  A
missing input returns False before the overlay is created (lines 182-184).
Otherwise the temporary overlay file is created (lines 187-193); an exception
at any later point is caught by the handler at lines 217-219, which returns
False without removing the temporary file — `os.remove(watermark_file)` (line
212) runs only on the success path, after the output is written.  An
exception while writing the output (lines 208-209) additionally leaves the
partially written output file opened by `open(output_file, 'wb')`. -/
def add_watermark (a : WmArgs) : WmOutcome :=
  if !a.inputExists then ⟨false, false, none, false⟩
  else
    match a.failAt with
    | some WmStep.parseInput => ⟨false, true, none, false⟩
    | some WmStep.parseOverlay => ⟨false, true, none, false⟩
    | some WmStep.mergeLoop => ⟨false, true, none, false⟩
    | some WmStep.writeOutput => ⟨false, true, none, true⟩
    | none => ⟨true, false, some (watermark_pages a.input a.overlay), false⟩

/-- A concrete overlay page for the watermark counterexample. -/
def wmOverlay : Page := ⟨[Op.showText "CONFIDENTIAL"], (0, 0, 612, 792), 0⟩

/-- C2 counterexample: a run that fails right after the temporary overlay is
created (while parsing the input) returns failure with the temporary overlay
file still on disk, and a run that fails while writing the output leaves a
partially written output file — the claimed cleanup on every exit path does
not hold. -/
theorem add_watermark_cleanup_counterexample :
    (add_watermark ⟨true, [], wmOverlay, some WmStep.parseInput⟩).success = false ∧
    (add_watermark ⟨true, [], wmOverlay, some WmStep.parseInput⟩).tempOverlayRemains = true ∧
    (add_watermark ⟨true, [], wmOverlay, some WmStep.writeOutput⟩).outputPartial = true := by
  refine ⟨rfl, rfl, rfl⟩

/-- C2 as the code actually behaves: the run succeeds exactly when the input
exists and nothing fails; the temporary overlay file remains on disk exactly
when the run fails after the overlay was created (every error path after
creation leaks it); a partially written output file remains exactly when the
failure happens during output writing; and on the success path the temporary
overlay is removed. -/
theorem add_watermark_cleanup_actual (a : WmArgs) :
    ((add_watermark a).success = true ↔ a.inputExists = true ∧ a.failAt = none) ∧
    ((add_watermark a).tempOverlayRemains = true ↔
      a.inputExists = true ∧ a.failAt ≠ none) ∧
    ((add_watermark a).outputPartial = true ↔
      a.inputExists = true ∧ a.failAt = some WmStep.writeOutput) ∧
    ((add_watermark a).success = true → (add_watermark a).tempOverlayRemains = false) := by
  obtain ⟨e, inp, ov, f⟩ := a
  cases e <;> rcases f with _ | s
  · simp [add_watermark]
  · cases s <;> simp [add_watermark]
  · simp [add_watermark]
  · cases s <;> simp [add_watermark]

/-! ## Merging (src/script.py lines 46-68, `merge_pdfs`) -/

/-- One source file handed to the merge operation: missing on disk (the
`os.path.exists` check at line 52 fails), present but failing to load (the
`merger.append` call at line 57 raises), or loading to a document. -/
inductive SourceFile where
  | missing
  | corrupt
  | ok (pages : Document)
deriving DecidableEq

/-- What a merge run returns and leaves on disk: the returned success flag
and the output file's document, `none` when no output file was created. -/
structure MergeResult where
  success : Bool
  output : Option Document
deriving DecidableEq

/-- Embeds the per-file loop of `merge_pdfs` (src lines 51-57): the files are
visited in input order; a missing file returns False at once (lines 52-54), a
file that fails to load raises out of `merger.append` into the handler at
lines 66-68, which returns False; otherwise the file's pages are appended. -/
def mergeLoad : List SourceFile → Option (List Document)
  | [] => some []
  | SourceFile.missing :: _ => none
  | SourceFile.corrupt :: _ => none
  | SourceFile.ok d :: rest => Option.map (fun ds => d :: ds) (mergeLoad rest)

/-- Embeds `merge_pdfs` (src lines 46-68).  The output file is opened and
written (lines 59-60) only after the loop has loaded every source, so a
failing source leaves no output file.  Modelled from the spec:
`PdfMerger.append` places each source's pages at the running end of the
accumulating document (§4.6 Merge via §4.4 `insert_pages`), so the written
output is the in-order concatenation of the sources' page lists. -/
def merge_pdfs (inputs : List SourceFile) : MergeResult :=
  match mergeLoad inputs with
  | none => ⟨false, none⟩
  | some ds => ⟨true, some ds.flatten⟩

/-- C4: if any source file is missing or fails to load, the merge returns
failure and creates no output file. -/
theorem merge_pdfs_atomic (inputs : List SourceFile)
    (h : SourceFile.missing ∈ inputs ∨ SourceFile.corrupt ∈ inputs) :
    (merge_pdfs inputs).success = false ∧ (merge_pdfs inputs).output = none := by
  have hnone : mergeLoad inputs = none := by
    induction inputs with
    | nil => simp at h
    | cons x rest ih =>
      cases x with
      | missing => rfl
      | corrupt => rfl
      | ok d =>
        have hrest : SourceFile.missing ∈ rest ∨ SourceFile.corrupt ∈ rest := by
          rcases h with h | h
          · rcases List.mem_cons.mp h with h2 | h2
            · exact absurd h2 (by simp)
            · exact Or.inl h2
          · rcases List.mem_cons.mp h with h2 | h2
            · exact absurd h2 (by simp)
            · exact Or.inr h2
        simp [mergeLoad, ih hrest]
  simp [merge_pdfs, hnone]

/-- C4 witness: merging a list containing a missing file fails and produces
no output file. -/
theorem merge_pdfs_atomic_witness :
    (merge_pdfs [SourceFile.missing]).success = false ∧
    (merge_pdfs [SourceFile.missing]).output = none :=
  merge_pdfs_atomic [SourceFile.missing] (Or.inl (List.mem_singleton.mpr rfl))

/-! ## Splitting (src/script.py lines 70-113, `split_pdf`) -/

/-- The output filename of one chunk (src lines 94-99): for one page per
file, `{base}_page_{i+1}.pdf`; otherwise `{base}_pages_{i+1}-{end}.pdf`. -/
def splitFileName (b : String) (k i e : Nat) : String :=
  if k = 1 then b ++ "_page_" ++ toString (i + 1) ++ ".pdf"
  else b ++ "_pages_" ++ toString (i + 1) ++ "-" ++ toString e ++ ".pdf"

/-- Embeds the chunk loop of `split_pdf` (src lines 86-106): `for i in
range(0, total_pages, pages_per_file)`, each iteration collects the pages of
`[i, min(i + pages_per_file, total_pages))` into a fresh writer and writes
them to the chunk's file.  (Python's `range` with step 0 raises, so the loop
is only entered for a positive step.) -/
def splitWrites (pages : Document) (b : String) (k i : Nat) :
    List (String × Document) :=
  if h : i < pages.length ∧ 0 < k then
    (splitFileName b k i (min (i + k) pages.length),
      (pages.drop i).take (min (i + k) pages.length - i)) ::
      splitWrites pages b k (i + k)
  else []
termination_by pages.length - i
decreasing_by omega

/-- The sequence of documents the split operation writes, in order. -/
def splitDocs (pages : Document) (b : String) (k : Nat) : List Document :=
  (splitWrites pages b k 0).map Prod.snd

/-- The split loop in closed form: chunks of `k` consecutive elements taken
off the front until the list is exhausted. -/
def splitChunks {α : Type} (k : Nat) (l : List α) : List (List α) :=
  if hc : l.length = 0 ∨ k = 0 then [] else l.take k :: splitChunks k (l.drop k)
termination_by l.length
decreasing_by
  rcases not_or.mp hc with ⟨h1, h2⟩
  simp only [List.length_drop]
  omega

theorem splitWrites_snd (pages : Document) (b : String) (k i : Nat) :
    (splitWrites pages b k i).map Prod.snd = splitChunks k (pages.drop i) := by
  rw [splitWrites]
  split
  · rename_i h
    rw [List.map_cons, splitWrites_snd pages b k (i + k)]
    conv_rhs => rw [splitChunks]
    have hcond : ¬((pages.drop i).length = 0 ∨ k = 0) := by
      simp only [List.length_drop]
      omega
    rw [dif_neg hcond]
    have hhd : (pages.drop i).take (min (i + k) pages.length - i) =
        (pages.drop i).take k := by
      rw [List.take_eq_take]
      simp only [List.length_drop]
      omega
    rw [hhd, List.drop_drop]
  · rename_i h
    conv_rhs => rw [splitChunks]
    have hcond : (pages.drop i).length = 0 ∨ k = 0 := by
      simp only [List.length_drop]
      omega
    rw [dif_pos hcond]
    rfl
termination_by pages.length - i
decreasing_by omega

theorem splitChunks_flatten {α : Type} (k : Nat) (hk : 0 < k) (l : List α) :
    (splitChunks k l).flatten = l := by
  rw [splitChunks]
  split
  · rename_i h
    rcases h with h | h
    · rw [List.length_eq_zero.mp h]
      rfl
    · omega
  · rename_i h
    have h3 : 0 < l.length := by
      rcases not_or.mp h with ⟨h1, _⟩
      omega
    rw [List.flatten_cons, splitChunks_flatten k hk (l.drop k), List.take_append_drop]
termination_by l.length
decreasing_by
  simp only [List.length_drop]
  omega

theorem splitChunks_length {α : Type} (k : Nat) (hk : 0 < k) (l : List α) :
    (splitChunks k l).length = (l.length + k - 1) / k := by
  rw [splitChunks]
  split
  · rename_i h
    rcases h with h | h
    · rw [h]
      have e3 : (0 + k - 1) / k = 0 := Nat.div_eq_of_lt (by omega)
      rw [e3]
      rfl
    · omega
  · rename_i h
    have h3 : 0 < l.length := by
      rcases not_or.mp h with ⟨h1, _⟩
      omega
    rw [List.length_cons, splitChunks_length k hk (l.drop k), List.length_drop]
    have e2 : l.length + k - 1 = (l.length - 1) + k := by omega
    rw [e2, Nat.add_div_right _ hk]
    rcases Nat.lt_or_ge l.length k with hlt | hge
    · have e1 : l.length - k = 0 := by omega
      rw [e1]
      have e3 : (0 + k - 1) / k = 0 := Nat.div_eq_of_lt (by omega)
      have e4 : (l.length - 1) / k = 0 := Nat.div_eq_of_lt (by omega)
      rw [e3, e4]
    · have e1 : l.length - k + k - 1 = l.length - 1 := by omega
      rw [e1]
termination_by l.length
decreasing_by
  simp only [List.length_drop]
  omega

theorem splitChunks_getElem {α : Type} (k : Nat) (hk : 0 < k) (l : List α) (i : Nat) :
    (splitChunks k l)[i]? =
      if i * k < l.length then some ((l.drop (i * k)).take k) else none := by
  induction i generalizing l with
  | zero =>
    rw [splitChunks]
    split
    · rename_i h
      rcases h with h | h
      · rw [List.length_eq_zero.mp h]
        simp
      · omega
    · rename_i h
      have h3 : 0 < l.length := by
        rcases not_or.mp h with ⟨h1, _⟩
        omega
      simp [h3]
  | succ i ih =>
    rw [splitChunks]
    split
    · rename_i h
      rcases h with h | h
      · rw [List.length_eq_zero.mp h]
        simp
      · omega
    · rename_i h
      rw [List.getElem?_cons_succ, ih (l.drop k), List.length_drop, List.drop_drop]
      have he : (i + 1) * k = i * k + k := by ring
      have he2 : k + i * k = i * k + k := by ring
      rw [he, he2]
      by_cases hx : i * k + k < l.length
      · rw [if_pos (by omega), if_pos hx]
      · rw [if_neg (by omega), if_neg hx]

/-- C5: splitting an `n`-page document with `pages_per_chunk = k ≥ 1`
produces `⌈n / k⌉` output documents; the `i`-th output document (0-based) is
exactly the pages of `[i·k, i·k + k)`, so chunk boundaries are `[0,k), [k,2k),
…`; and every chunk except possibly the last has exactly `k` pages. -/
theorem split_pdf_chunking (pages : Document) (b : String) (k : Nat) (hk : 1 ≤ k) :
    (splitDocs pages b k).length = (pages.length + k - 1) / k ∧
    (∀ i : Nat, (splitDocs pages b k)[i]? =
      if i * k < pages.length then some ((pages.drop (i * k)).take k) else none) ∧
    (∀ i c, i + 1 < (splitDocs pages b k).length →
      (splitDocs pages b k)[i]? = some c → c.length = k) := by
  have hk0 : 0 < k := hk
  have hd : splitDocs pages b k = splitChunks k pages := by
    rw [splitDocs, splitWrites_snd, List.drop_zero]
  refine ⟨?_, ?_, ?_⟩
  · rw [hd, splitChunks_length k hk0]
  · intro i
    rw [hd, splitChunks_getElem k hk0]
  · intro i c hlen hc
    rw [hd] at hlen hc
    have hnext := List.getElem?_eq_getElem hlen
    rw [splitChunks_getElem k hk0] at hnext
    have hmul : (i + 1) * k = i * k + k := by ring
    have hlt : (i + 1) * k < pages.length := by
      by_contra hn
      rw [if_neg hn] at hnext
      exact Option.noConfusion hnext
    rw [splitChunks_getElem k hk0, if_pos (by omega)] at hc
    have hc2 : c = (pages.drop (i * k)).take k := by
      exact (Option.some.injEq _ _ ▸ hc).symm
    rw [hc2, List.length_take, List.length_drop]
    omega

/-- A concrete five-page document, the spec's `report.pdf` example. -/
def fivePageDoc : Document :=
  [⟨[Op.showText "page one"], (0, 0, 612, 792), 0⟩,
   ⟨[Op.showText "page two"], (0, 0, 612, 792), 0⟩,
   ⟨[Op.showText "page three"], (0, 0, 612, 792), 0⟩,
   ⟨[Op.showText "page four"], (0, 0, 612, 792), 0⟩,
   ⟨[Op.showText "page five"], (0, 0, 612, 792), 0⟩]

/-- C5 witness: splitting the five-page document with two pages per chunk
produces `⌈5 / 2⌉ = 3` output documents. -/
theorem split_pdf_chunking_witness :
    (splitDocs fivePageDoc "report" 2).length = (fivePageDoc.length + 2 - 1) / 2 :=
  (split_pdf_chunking fivePageDoc "report" 2 (by norm_num)).1

theorem mergeLoad_ok (ds : List Document) :
    mergeLoad (ds.map SourceFile.ok) = some ds := by
  induction ds with
  | nil => rfl
  | cons d rest ih => simp [mergeLoad, ih]

/-- C6: merging, in order, the documents produced by splitting `D` with any
`k ≥ 1` succeeds and recovers exactly `D`'s page sequence. -/
theorem merge_split_roundtrip (D : Document) (b : String) (k : Nat) (hk : 1 ≤ k) :
    merge_pdfs ((splitDocs D b k).map SourceFile.ok) = ⟨true, some D⟩ := by
  have hflat : (splitDocs D b k).flatten = D := by
    have hd : splitDocs D b k = splitChunks k D := by
      rw [splitDocs, splitWrites_snd, List.drop_zero]
    rw [hd, splitChunks_flatten k hk]
  simp [merge_pdfs, mergeLoad_ok, hflat]

/-- C6 witness: splitting the five-page document into chunks of two and
merging the three results back recovers the original document. -/
theorem merge_split_roundtrip_witness :
    merge_pdfs ((splitDocs fivePageDoc "report" 2).map SourceFile.ok) =
      ⟨true, some fivePageDoc⟩ :=
  merge_split_roundtrip fivePageDoc "report" 2 (by norm_num)

/-! ## Text extraction (src/script.py lines 115-146, `extract_text`) -/

/-- Modelled from the spec: `page.extract_text()` at line 130 is performed by
the external PDF library, absent from src/.  §4.6 ExtractText: the page's
text is reconstructed "from show-text operators in stream order, ignoring
non-text operators". -/
def extractPageText (ops : List Op) : String :=
  ops.foldl
    (fun acc op =>
      match op with
      | Op.showText s => acc ++ s
      | Op.other _ => acc)
    ""

/-- Embeds the extraction loop of `extract_text` (src lines 129-131):
`for page_num, page in enumerate(reader.pages, 1)` appends one entry
`"=== Page {page_num} ===\n{text}\n"` per page, in page order. -/
def extractLoop (pageNum : Nat) : List Page → List String
  | [] => []
  | p :: rest =>
    ("=== Page " ++ toString pageNum ++ " ===\n" ++ extractPageText p.content ++ "\n") ::
      extractLoop (pageNum + 1) rest

/-- Embeds `extract_text`'s collected per-page entries (src lines 122-132);
the caller then joins them, prints them or writes them to a file. -/
def extract_text (pages : Document) : List String :=
  extractLoop 1 pages

theorem extractLoop_getElem (pages : List Page) (n i : Nat) :
    (extractLoop n pages)[i]? =
      pages[i]?.map
        (fun p => "=== Page " ++ toString (n + i) ++ " ===\n" ++
          extractPageText p.content ++ "\n") := by
  induction pages generalizing n i with
  | nil => simp [extractLoop]
  | cons p rest ih =>
    cases i with
    | zero => simp [extractLoop]
    | succ i =>
      rw [extractLoop, List.getElem?_cons_succ, List.getElem?_cons_succ, ih (n + 1) i]
      have he : n + 1 + i = n + (i + 1) := by omega
      rw [he]

theorem extractLoop_length (pages : List Page) (n : Nat) :
    (extractLoop n pages).length = pages.length := by
  induction pages generalizing n with
  | nil => rfl
  | cons p rest ih =>
    rw [extractLoop, List.length_cons, List.length_cons, ih (n + 1)]

/-- C9: text extraction over an `n`-page document produces exactly `n`
per-page entries in document page order, and the entry at index `i` is keyed
by the 1-based page number `i + 1` and derived from page `i`'s content. -/
theorem extract_text_spec (pages : Document) :
    (extract_text pages).length = pages.length ∧
    ∀ i : Nat, (extract_text pages)[i]? =
      pages[i]?.map
        (fun p => "=== Page " ++ toString (i + 1) ++ " ===\n" ++
          extractPageText p.content ++ "\n") := by
  refine ⟨extractLoop_length pages 1, ?_⟩
  intro i
  rw [extract_text, extractLoop_getElem pages 1 i]
  have he : 1 + i = i + 1 := by omega
  rw [he]

/-! ## The split operation's filesystem effects (src/script.py lines 70-113) -/

/-- A directory path as its list of components, and the files on disk as
(directory, filename, written document) triples. -/
structure FS where
  dirs : List (List String)
  files : List (List String × String × Document)
deriving DecidableEq

/-- Creates one directory if it is not already present; an existing directory
is left as is (not an error). -/
def addDir (ds : List (List String)) (q : List String) : List (List String) :=
  if q ∈ ds then ds else ds ++ [q]

/-- Embeds `Path(output_dir).mkdir(parents=True, exist_ok=True)` (src line
78): every ancestor of the path, the path itself included, is created when
missing; nothing fails when some or all of them already exist. -/
def mkdirParents (fs : FS) (p : List String) : FS :=
  { fs with dirs := p.inits.foldl addDir fs.dirs }

/-- Embeds `split_pdf` (src lines 70-113): a missing input returns False
(lines 73-75); otherwise the output directory is created (line 78) before the
chunk loop runs.  With `pages_per_file = 0`, `range(0, total_pages, 0)` at
line 86 raises `ValueError`, which the handler at lines 111-113 turns into
False — the directory was already created, but no chunk file is written.
With a positive chunk size each chunk file is written at
`os.path.join(output_dir, output_filename)` (lines 101-104), i.e. into the
output directory. -/
def split_pdf (fs : FS) (inputExists : Bool) (pages : Document) (b : String)
    (outDir : List String) (k : Nat) : FS × Bool :=
  if !inputExists then (fs, false)
  else
    let fs1 := mkdirParents fs outDir
    if k = 0 then (fs1, false)
    else
      ({ fs1 with
          files := fs1.files ++ (splitWrites pages b k 0).map (fun w => (outDir, w.1, w.2)) },
        true)

theorem mem_foldl_addDir_left (qs : List (List String)) (acc : List (List String))
    (q : List String) (hq : q ∈ acc) : q ∈ qs.foldl addDir acc := by
  induction qs generalizing acc with
  | nil => exact hq
  | cons x xs ih =>
    refine ih (addDir acc x) ?_
    rw [addDir]
    split
    · exact hq
    · exact List.mem_append_left _ hq

theorem mem_foldl_addDir (qs : List (List String)) (acc : List (List String))
    (q : List String) (hq : q ∈ qs) : q ∈ qs.foldl addDir acc := by
  induction qs generalizing acc with
  | nil => cases hq
  | cons x xs ih =>
    rcases List.mem_cons.mp hq with h | h
    · subst h
      refine mem_foldl_addDir_left xs (addDir acc q) q ?_
      rw [addDir]
      split
      · assumption
      · exact List.mem_append_right _ (List.mem_singleton.mpr rfl)
    · exact ih (addDir acc x) h

/-- C10: with an existing input and a positive chunk size, the split
operation succeeds for every starting filesystem (so an already-existing
output directory is not an error), the output directory and every ancestor of
it exist afterwards, and the chunk files written by the call are exactly the
loop's chunks, each placed in the output directory. -/
theorem split_pdf_creates_output_dir (fs : FS) (pages : Document) (b : String)
    (outDir : List String) (k : Nat) (hk : 1 ≤ k) :
    (split_pdf fs true pages b outDir k).2 = true ∧
    outDir ∈ (split_pdf fs true pages b outDir k).1.dirs ∧
    (∀ q : List String, q ∈ outDir.inits → q ∈ (split_pdf fs true pages b outDir k).1.dirs) ∧
    (split_pdf fs true pages b outDir k).1.files =
      fs.files ++ (splitWrites pages b k 0).map (fun w => (outDir, w.1, w.2)) := by
  have hk0 : ¬ (k = 0) := by omega
  have hs : split_pdf fs true pages b outDir k =
      ({ (mkdirParents fs outDir) with
          files := (mkdirParents fs outDir).files ++
            (splitWrites pages b k 0).map (fun w => (outDir, w.1, w.2)) },
        true) := by
    simp [split_pdf, hk0]
  rw [hs]
  refine ⟨rfl, ?_, ?_, rfl⟩
  · exact mem_foldl_addDir outDir.inits fs.dirs outDir
      ((List.mem_inits outDir outDir).mpr ⟨[], List.append_nil outDir⟩)
  · intro q hq
    exact mem_foldl_addDir outDir.inits fs.dirs q hq

/-- C10 witness: splitting a five-page document with one page per chunk into
an empty filesystem succeeds (and, by the theorem, creates the directory and
writes the chunks into it). -/
theorem split_pdf_creates_output_dir_witness :
    (split_pdf ⟨[], []⟩ true fivePageDoc "report" ["out"] 1).2 = true :=
  (split_pdf_creates_output_dir ⟨[], []⟩ fivePageDoc "report" ["out"] 1 (by norm_num)).1

/-! ## Sample creation (src/script.py lines 255-288, `create_sample_pdf`) -/

/-- Modelled from the spec: the reportlab canvas consumed at lines 258-282 is
an external library, absent from src/.  §4.5: the canvas records drawing
operators on a current page; a show-page operator completes the current page;
here a page is kept as the ordered list of strings drawn on it (the only
operator the claim needs), the current page number is one past the completed
pages, and saving completes the final page and yields the document. -/
structure Canvas where
  donePages : List (List String)
  current : List String
deriving DecidableEq

def Canvas.drawString (c : Canvas) (s : String) : Canvas :=
  { c with current := c.current ++ [s] }

def Canvas.showPage (c : Canvas) : Canvas :=
  ⟨c.donePages ++ [c.current], []⟩

def Canvas.getPageNumber (c : Canvas) : Nat :=
  c.donePages.length + 1

def Canvas.save (c : Canvas) : List (List String) :=
  c.donePages ++ [c.current]

/-- Python's `content.split('\n')` over the character list: `[[]]` for the
empty string, a new empty line opened at each newline character. -/
def splitLinesAux : List Char → List (List Char)
  | [] => [[]]
  | ch :: rest =>
    match splitLinesAux rest with
    | [] => [[ch]]
    | s :: ss => if ch = '\n' then [] :: s :: ss else (ch :: s) :: ss

/-- Embeds `content.split('\n')` at src line 267. -/
def splitLines (content : String) : List String :=
  (splitLinesAux content.data).map (fun l => String.mk l)

/-- Embeds the body loop of `create_sample_pdf` (src lines 270-276): when the
vertical cursor has dropped below 50 a new page is started and the cursor
reset to `height - 50`; the line is drawn; the cursor advances down by 20. -/
def drawBody : Canvas → Int → List String → Canvas
  | c, _, [] => c
  | c, y, line :: rest =>
    if y < 50 then drawBody ((c.showPage).drawString line) (792 - 50 - 20) rest
    else drawBody (c.drawString line) (y - 20) rest

/-- Embeds `create_sample_pdf` (src lines 255-288): the title is drawn on the
first page (line 263), the body lines are drawn starting at `height - 150`
(lines 267-276), and then a single page-number label
`"Page " + str(c.getPageNumber())` is drawn once, on whatever page is current
at that moment (lines 279-280), before the canvas is saved (line 282). -/
def create_sample_pdf (content : String) : List (List String) :=
  let c0 := Canvas.drawString ⟨[], []⟩ "Sample PDF Document"
  let c1 := drawBody c0 (792 - 150) (splitLines content)
  let c2 := c1.drawString ("Page " ++ toString c1.getPageNumber)
  c2.save

/-- A body of 31 identical lines: 30 fit on the first page (the cursor runs
642, 622, …, 62), the 31st triggers the page break. -/
def thirtyOneLines : String :=
  "x\nx\nx\nx\nx\nx\nx\nx\nx\nx\nx\nx\nx\nx\nx\nx\nx\nx\nx\nx\nx\nx\nx\nx\nx\nx\nx\nx\nx\nx\nx"

/-- C1: the claim fails on the code.  Creating a sample document whose body
spans two pages yields a two-page document in which the first page carries no
"Page 1" label; the only page-number label is "Page 2", drawn from the
running page counter at save time onto the final page. -/
theorem create_sample_pdf_label_last_page_only :
    (create_sample_pdf thirtyOneLines).length = 2 ∧
    ¬ ("Page 1" ∈ (create_sample_pdf thirtyOneLines).headD []) ∧
    "Page 2" ∈ ((create_sample_pdf thirtyOneLines).getD 1 []) := by
  decide
